import Mathlib

/-!
Verification development for the AirControlX air-traffic-control simulation.

This file gives a shallow embedding of the C++ core (Constants.h,
Aircraft.cpp, Runway.cpp, Flight.cpp, SpeedMonitor.cpp, the Airline part of
SimulationController.cpp) and proves properties of the embedded operations.

Modelling conventions:
* C++ `double` values (speeds, simulation times, usage times) are modelled as
  rationals.  `std::chrono::steady_clock::now()` reads are modelled by passing
  the current wall-clock instant as an explicit rational parameter; the
  `duration_cast<seconds>` truncation of a non-negative duration is modelled
  with the integer floor.
* Randomness (`std::mt19937` draws) is modelled by explicit oracle parameters:
  a `sample : FlightPhase -> Rat` function stands for
  `generateRandomSpeedForPhase`, and explicit Booleans/rationals stand for the
  fault rolls and Gaussian speed perturbations of `Aircraft::update`.
* `std::shared_ptr<Aircraft>` arguments are modelled as `Option Aircraft`
  (`none` is the null pointer).  Pointer identity of distinct aircraft objects
  is modelled by the `id` field, which the simulation keeps unique per
  aircraft; the pointer comparison in `Runway::releaseAircraft` becomes an
  `id` comparison.
* Mutexes are ignored: every operation is embedded as a pure function from the
  pre-state to (result, post-state), mirroring its single-threaded semantics.
-/

namespace AirControlX

/-- Aircraft types, from Constants.h `enum class AircraftType`. -/
inductive AircraftType where
  | commercial
  | cargo
  | emergency
deriving DecidableEq, Repr

/-- Flight directions, from Constants.h `enum class FlightDirection`.
North/South are arrivals, East/West are departures. -/
inductive FlightDirection where
  | north
  | south
  | east
  | west
deriving DecidableEq, Repr

/-- Runway identifiers, from Constants.h `enum class RunwayId`. -/
inductive RunwayId where
  | rwyA
  | rwyB
  | rwyC
deriving DecidableEq, Repr

/-- Flight phases, from Constants.h `enum class FlightPhase`. -/
inductive FlightPhase where
  | holding
  | approach
  | landing
  | taxiIn
  | atGateArrival
  | atGateDeparture
  | taxiOut
  | takeoffRoll
  | climb
  | cruise
deriving DecidableEq, Repr

/-- Speed limits for a flight phase, from Constants.h `struct SpeedLimits`. -/
structure SpeedLimits where
  min : ℚ
  max : ℚ
deriving DecidableEq, Repr

/-- The phase speed-limit table, from Constants.h `SPEED_LIMITS`.  The C++
`std::map` literally contains every `FlightPhase` enumerator, so `find` always
succeeds; the embedding is therefore a total function and the not-found
branches of the C++ lookups are dead code. -/
def SPEED_LIMITS : FlightPhase → SpeedLimits
  | .holding => ⟨400, 600⟩
  | .approach => ⟨240, 290⟩
  | .landing => ⟨30, 240⟩
  | .taxiIn => ⟨15, 30⟩
  | .atGateArrival => ⟨0, 5⟩
  | .atGateDeparture => ⟨0, 5⟩
  | .taxiOut => ⟨15, 30⟩
  | .takeoffRoll => ⟨0, 290⟩
  | .climb => ⟨250, 463⟩
  | .cruise => ⟨800, 900⟩

/-- Per-direction flight-generation intervals in seconds, from Constants.h
`FLIGHT_GENERATION_INTERVAL` (again a map containing every enumerator). -/
def FLIGHT_GENERATION_INTERVAL : FlightDirection → ℚ
  | .north => 180
  | .south => 120
  | .east => 150
  | .west => 240

/-- One Airspace Violation Notice entry on an aircraft.  In the C++ code
`Aircraft::m_activeAVNs` stores a formatted description string built by
`SpeedMonitor::generateAVN` from exactly these data (violation kind, time,
speed, phase); the embedding keeps the structured data instead of the
formatted text. -/
structure AVNNotice where
  rapidChange : Bool
  time : ℚ
  speed : ℚ
  phase : FlightPhase
deriving DecidableEq, Repr

/-- Aircraft state, from Aircraft.h.  `airlineName` models the back-pointer
`m_airline` by the only datum the embedded code reads from it
(`getAirline()->getName()`); `none` is a null back-pointer. -/
structure Aircraft where
  id : String
  type : AircraftType
  direction : FlightDirection
  currentPhase : FlightPhase
  currentSpeed : ℚ
  airlineName : Option String
  assignedRunway : Option RunwayId
  hasGroundFault : Bool
  activeAVNs : List AVNNotice
deriving DecidableEq, Repr

/-- Aircraft::isArrival: North and South are arrivals. -/
def Aircraft.isArrival (a : Aircraft) : Bool :=
  a.direction = FlightDirection.north || a.direction = FlightDirection.south

/-- Aircraft::assignRunway: records the assigned runway id on the aircraft. -/
def Aircraft.assignRunway (a : Aircraft) (runwayId : RunwayId) : Aircraft :=
  { a with assignedRunway := some runwayId }

/-- Aircraft::getNextPhase: the statically-defined next phase in the arrival
or departure sequence; terminal phases return the current phase unchanged. -/
def Aircraft.getNextPhase (a : Aircraft) : FlightPhase :=
  match a.currentPhase with
  | .holding => .approach
  | .approach => .landing
  | .landing => .taxiIn
  | .taxiIn => .atGateArrival
  | .atGateDeparture => .taxiOut
  | .taxiOut => .takeoffRoll
  | .takeoffRoll => .climb
  | .climb => .cruise
  | .atGateArrival => .atGateArrival
  | .cruise => .cruise

/-- Aircraft::isValidTransition: whether moving to `nextPhase` from the
current phase follows the arrival or departure chain. -/
def Aircraft.isValidTransition (a : Aircraft) (nextPhase : FlightPhase) : Bool :=
  match a.currentPhase with
  | .holding => nextPhase = FlightPhase.approach
  | .approach => nextPhase = FlightPhase.landing
  | .landing => nextPhase = FlightPhase.taxiIn
  | .taxiIn => nextPhase = FlightPhase.atGateArrival
  | .atGateArrival => false
  | .atGateDeparture => nextPhase = FlightPhase.taxiOut
  | .taxiOut => nextPhase = FlightPhase.takeoffRoll
  | .takeoffRoll => nextPhase = FlightPhase.climb
  | .climb => nextPhase = FlightPhase.cruise
  | .cruise => false

/-- Aircraft::transitionToNextPhase.  `sample` is the oracle standing for
`generateRandomSpeedForPhase`: on success the speed becomes a fresh draw for
the new phase. -/
def Aircraft.transitionToNextPhase (a : Aircraft) (sample : FlightPhase → ℚ) :
    Bool × Aircraft :=
  let nextPhase := a.getNextPhase
  if a.isValidTransition nextPhase then
    (true, { a with currentPhase := nextPhase, currentSpeed := sample nextPhase })
  else
    (false, a)

/-- std::clamp(v, lo, hi): lo if v < lo, hi if hi < v, otherwise v. -/
def clampQ (v lo hi : ℚ) : ℚ :=
  if v < lo then lo else if hi < v then hi else v

/-- Aircraft::updateSpeed: adds the delta, clamps the result into the current
phase's speed limits (the limits lookup always succeeds, see SPEED_LIMITS),
stores it and returns true. -/
def Aircraft.updateSpeed (a : Aircraft) (speedDelta : ℚ) : Bool × Aircraft :=
  let newSpeed := a.currentSpeed + speedDelta
  let limits := SPEED_LIMITS a.currentPhase
  let newSpeed := clampQ newSpeed limits.min limits.max
  (true, { a with currentSpeed := newSpeed })

/-- Aircraft::setSpeed: stores the value directly without validation and
returns true. -/
def Aircraft.setSpeed (a : Aircraft) (newSpeed : ℚ) : Bool × Aircraft :=
  (true, { a with currentSpeed := newSpeed })

/-- Aircraft::issueAVN: appends the violation to the aircraft's AVN list. -/
def Aircraft.issueAVN (a : Aircraft) (reason : AVNNotice) : Aircraft :=
  { a with activeAVNs := a.activeAVNs ++ [reason] }

/-- Whether the aircraft is in one of the four ground phases checked by
Aircraft::update and Aircraft::simulateGroundFault. -/
def Aircraft.inGroundPhase (a : Aircraft) : Bool :=
  a.currentPhase = FlightPhase.taxiIn || a.currentPhase = FlightPhase.atGateArrival ||
  a.currentPhase = FlightPhase.atGateDeparture || a.currentPhase = FlightPhase.taxiOut

/-- Aircraft::update.  `speedDelta` is the Gaussian perturbation draw and
`faultRoll` the outcome of the `faultDist(gen) < 0.001 * deltaTime`
comparison; both are random in the C++ code and passed as oracles here. -/
def Aircraft.update (a : Aircraft) (speedDelta : ℚ) (faultRoll : Bool) : Aircraft :=
  let a := { a with currentSpeed := a.currentSpeed + speedDelta }
  if a.inGroundPhase && !a.hasGroundFault && faultRoll then
    { a with hasGroundFault := true }
  else
    a

/-- Runway status, from Runway.h `enum class Status`. -/
inductive RunwayStatus where
  | available
  | inUse
  | maintenance
  | weatherClosed
deriving DecidableEq, Repr

/-- Runway state, from Runway.h. -/
structure Runway where
  id : RunwayId
  status : RunwayStatus
  assignedAircraft : Option Aircraft
  usageCount : Nat
  totalUsageTime : ℚ
  lastAssignmentTime : ℚ
deriving DecidableEq, Repr

/-- Runway::isValidRunwayForDirection (static).  The trailing false branch is
unreachable because the three ids are exhaustive. -/
def isValidRunwayForDirection (id : RunwayId) (direction : FlightDirection) : Bool :=
  if id = RunwayId.rwyA then
    decide (direction = FlightDirection.north ∨ direction = FlightDirection.south)
  else if id = RunwayId.rwyB then
    decide (direction = FlightDirection.east ∨ direction = FlightDirection.west)
  else if id = RunwayId.rwyC then
    true
  else
    false

/-- Runway::isValidRunwayForAircraftType (static). -/
def isValidRunwayForAircraftType (id : RunwayId) (type : AircraftType) : Bool :=
  if id = RunwayId.rwyA || id = RunwayId.rwyB then
    true
  else if id = RunwayId.rwyC then
    decide (type = AircraftType.cargo ∨ type = AircraftType.emergency)
  else
    false

/-- Runway::canUseForDirection. -/
def Runway.canUseForDirection (r : Runway) (direction : FlightDirection) : Bool :=
  isValidRunwayForDirection r.id direction

/-- Runway::canUseForAircraftType. -/
def Runway.canUseForAircraftType (r : Runway) (type : AircraftType) : Bool :=
  isValidRunwayForAircraftType r.id type

/-- Runway::assignAircraft.  `now` models the `steady_clock::now()` read.
On success the aircraft object is updated with the runway id
(`aircraft->assignRunway(m_id)`); since the stored occupant is the same
object, the updated aircraft is both stored and returned. -/
def Runway.assignAircraft (r : Runway) (aircraft : Option Aircraft) (now : ℚ) :
    Bool × Runway × Option Aircraft :=
  if r.status ≠ RunwayStatus.available then
    (false, r, aircraft)
  else
    match aircraft with
    | none => (false, r, none)
    | some a =>
      if r.canUseForDirection a.direction = false then
        (false, r, some a)
      else if r.canUseForAircraftType a.type = false then
        (false, r, some a)
      else
        let a := a.assignRunway r.id
        (true,
         { r with assignedAircraft := some a, status := RunwayStatus.inUse,
                  lastAssignmentTime := now, usageCount := r.usageCount + 1 },
         some a)

/-- Runway::releaseAircraft.  The C++ pointer comparison
`m_assignedAircraft != aircraft` is modelled by comparing the unique ids.
`duration_cast<seconds>` of the (monotone, hence non-negative) elapsed wall
time is modelled with the floor. -/
def Runway.releaseAircraft (r : Runway) (aircraft : Option Aircraft) (now : ℚ) :
    Bool × Runway :=
  if r.status ≠ RunwayStatus.inUse then
    (false, r)
  else
    match r.assignedAircraft, aircraft with
    | some occupant, some a =>
      if occupant.id ≠ a.id then
        (false, r)
      else
        let duration : ℤ := ⌊now - r.lastAssignmentTime⌋
        (true,
         { r with totalUsageTime := r.totalUsageTime + (duration : ℚ),
                  assignedAircraft := none, status := RunwayStatus.available })
    | _, _ => (false, r)

/-- Runway::setStatus.  Always returns true; a forced closure of an in-use
runway first accrues the usage time of the interrupted session, and any
target other than InUse clears the occupant. -/
def Runway.setStatus (r : Runway) (status : RunwayStatus) (now : ℚ) : Bool × Runway :=
  let r :=
    if r.status = RunwayStatus.inUse ∧
        (status = RunwayStatus.maintenance ∨ status = RunwayStatus.weatherClosed) ∧
        r.assignedAircraft.isSome = true then
      { r with totalUsageTime := r.totalUsageTime + ((⌊now - r.lastAssignmentTime⌋ : ℤ) : ℚ) }
    else
      r
  let r := { r with status := status }
  let r := if status ≠ RunwayStatus.inUse then { r with assignedAircraft := none } else r
  (true, r)

/-- One invocation of a public mutating runway operation, with the aircraft
argument and the wall-clock instant of the call. -/
inductive RunwayOp where
  | assign (aircraft : Option Aircraft) (now : ℚ)
  | release (aircraft : Option Aircraft) (now : ℚ)
  | set (status : RunwayStatus) (now : ℚ)

/-- Applies one runway operation, discarding the returned Booleans. -/
def Runway.step (r : Runway) : RunwayOp → Runway
  | .assign a t => (r.assignAircraft a t).2.1
  | .release a t => (r.releaseAircraft a t).2
  | .set s t => (r.setStatus s t).2

/-- Applies a sequence of runway operations in order. -/
def Runway.run (r : Runway) (ops : List RunwayOp) : Runway :=
  ops.foldl Runway.step r

/-- The Runway constructor: Available, no occupant, zero counters.  The
constructor's clock read is modelled as instant 0. -/
def initRunway (id : RunwayId) : Runway :=
  { id := id, status := RunwayStatus.available, assignedAircraft := none,
    usageCount := 0, totalUsageTime := 0, lastAssignmentTime := 0 }

/-- The occupancy invariant of the spec: InUse exactly when an occupant is
stored. -/
def runwayInv (r : Runway) : Prop :=
  r.status = RunwayStatus.inUse ↔ r.assignedAircraft.isSome = true

instance (r : Runway) : Decidable (runwayInv r) := by
  unfold runwayInv
  infer_instance

/-- An operation is in the restricted set of the amended C1: any assignment
or release, and any direct status set whose target is not InUse. -/
def RunwayOp.allowed : RunwayOp → Bool
  | .set s _ => decide (s ≠ RunwayStatus.inUse)
  | _ => true

/-- One speed-violation record, from SpeedMonitor.h `struct ViolationRecord`.
The formatted `description` string of the C++ record is a function of the
other fields and is elided. -/
structure ViolationRecord where
  aircraftId : String
  airlineName : String
  phase : FlightPhase
  actualSpeed : ℚ
  minAllowedSpeed : ℚ
  maxAllowedSpeed : ℚ
  timestamp : ℚ
deriving DecidableEq, Repr

/-- Looks a key up in an association list, as
`std::unordered_map::operator[]` does for reading an existing entry;
a missing key yields the default-constructed empty history. -/
def historyGet (m : List (String × List ℚ)) (k : String) : List ℚ :=
  match m.find? (fun p => p.1 == k) with
  | some p => p.2
  | none => []

/-- Stores a history under a key, inserting it if absent. -/
def historySet (m : List (String × List ℚ)) (k : String) (v : List ℚ) :
    List (String × List ℚ) :=
  match m with
  | [] => [(k, v)]
  | (k2, v2) :: rest =>
    if k2 == k then (k, v) :: rest else (k2, v2) :: historySet rest k v

/-- Increments a counter map entry, as `map[key]++` does (value-initialising
a missing entry to 0 first). -/
def bumpCount {κ : Type} [BEq κ] (m : List (κ × Nat)) (k : κ) : List (κ × Nat) :=
  match m with
  | [] => [(k, 1)]
  | (k2, n) :: rest =>
    if k2 == k then (k2, n + 1) :: rest else (k2, n) :: bumpCount rest k

/-- Speed-monitor state, from SpeedMonitor.h. -/
structure SpeedMonitor where
  speedHistory : List (String × List ℚ)
  violations : List ViolationRecord
  violationsByAirline : List (String × Nat)
  violationsByPhase : List (FlightPhase × Nat)
deriving DecidableEq, Repr

/-- The SpeedMonitor constructor: all maps and vectors empty. -/
def initSpeedMonitor : SpeedMonitor :=
  { speedHistory := [], violations := [], violationsByAirline := [],
    violationsByPhase := [] }

/-- SpeedMonitor::recordSpeedDataPoint: appends the sample to the aircraft's
history, keeping only the last 10 data points. -/
def SpeedMonitor.recordSpeedDataPoint (st : SpeedMonitor) (aircraftId : String)
    (speed : ℚ) : SpeedMonitor :=
  let history := historyGet st.speedHistory aircraftId
  let history := history ++ [speed]
  let history := if history.length > 10 then history.drop 1 else history
  { st with speedHistory := historySet st.speedHistory aircraftId history }

/-- Sum of absolute consecutive differences, the loop of
SpeedMonitor::detectRapidSpeedChanges. -/
def totalAbsChange : List ℚ → ℚ
  | [] => 0
  | [_] => 0
  | x :: y :: rest => |y - x| + totalAbsChange (y :: rest)

/-- SpeedMonitor::detectRapidSpeedChanges: with at least 3 samples, fires
when the mean absolute step-to-step delta exceeds 50 km/h. -/
def SpeedMonitor.detectRapidSpeedChanges (st : SpeedMonitor) (aircraftId : String) :
    Bool :=
  let history := historyGet st.speedHistory aircraftId
  if history.length < 3 then
    false
  else
    decide (totalAbsChange history / ((history.length : ℚ) - 1) > 50)

/-- SpeedMonitor::recordViolation: appends a record and bumps the per-airline
and per-phase counters.  A null airline back-pointer yields the name
of an unknown airline, as in the source. -/
def SpeedMonitor.recordViolation (st : SpeedMonitor) (a : Aircraft)
    (actualSpeed minAllowedSpeed maxAllowedSpeed currentTime : ℚ) : SpeedMonitor :=
  let airlineName := a.airlineName.getD "Unknown"
  let record : ViolationRecord :=
    { aircraftId := a.id, airlineName := airlineName, phase := a.currentPhase,
      actualSpeed := actualSpeed, minAllowedSpeed := minAllowedSpeed,
      maxAllowedSpeed := maxAllowedSpeed, timestamp := currentTime }
  { st with violations := st.violations ++ [record],
            violationsByAirline := bumpCount st.violationsByAirline airlineName,
            violationsByPhase := bumpCount st.violationsByPhase a.currentPhase }

/-- SpeedMonitor::generateAVN: issues the AVN (with its descriptive data) to
the aircraft via Aircraft::issueAVN. -/
def SpeedMonitor.generateAVN (a : Aircraft) (rapidChange : Bool) (currentTime : ℚ) :
    Aircraft :=
  a.issueAVN { rapidChange := rapidChange, time := currentTime,
               speed := a.currentSpeed, phase := a.currentPhase }

/-- SpeedMonitor::monitorAircraftSpeed: records the data point, then on an
out-of-bounds speed or a rapid-change detection records a violation and
issues an AVN to the aircraft, returning true. -/
def SpeedMonitor.monitorAircraftSpeed (st : SpeedMonitor) (aircraft : Option Aircraft)
    (currentTime : ℚ) : Bool × SpeedMonitor × Option Aircraft :=
  match aircraft with
  | none => (false, st, none)
  | some a =>
    let phase := a.currentPhase
    let speed := a.currentSpeed
    let st := st.recordSpeedDataPoint a.id speed
    let limits := SPEED_LIMITS phase
    let isViolation := decide (speed < limits.min ∨ speed > limits.max)
    let hasRapidChanges := st.detectRapidSpeedChanges a.id
    if isViolation || hasRapidChanges then
      let st := st.recordViolation a speed limits.min limits.max currentTime
      let a := SpeedMonitor.generateAVN a hasRapidChanges currentTime
      (true, st, some a)
    else
      (false, st, some a)

/-- Airline state, from Airline.h.  Note `m_lastFlightScheduleTime` is one
shared timestamp, not a per-direction map.  `fleetSize` models
`m_fleet.size()`; the aircraft objects themselves and the random flight ids
are not needed by the scheduling cadence (id collisions of the random flight
ids would only make an insert overwrite, which the embedding ignores). -/
structure Airline where
  name : String
  primaryType : AircraftType
  totalAircrafts : Nat
  activeFlights : Nat
  violationCount : Nat
  lastFlightScheduleTime : ℚ
  fleetSize : Nat
deriving DecidableEq, Repr

/-- Airline::canScheduleFlight: fleet strictly below capacity. -/
def Airline.canScheduleFlight (al : Airline) : Bool :=
  al.fleetSize < al.totalAircrafts

/-- Airline::createAircraft, reduced to its effect on the scheduling state:
fails if at capacity, otherwise inserts the new aircraft into the fleet.  The
aircraft-type sampling and flight-id generation are irrelevant here. -/
def Airline.createAircraft (al : Airline) : Bool × Airline :=
  if al.canScheduleFlight = false then
    (false, al)
  else
    (true, { al with fleetSize := al.fleetSize + 1,
                     activeFlights := al.activeFlights + 1 })

/-- Airline::scheduleFlightIfNeeded.  The interval lookup always succeeds
(the map holds all four directions).  The emergency-probability draw only
flavours the created aircraft and never affects whether the call fires. -/
def Airline.scheduleFlightIfNeeded (al : Airline) (currentTime : ℚ)
    (direction : FlightDirection) : Bool × Airline :=
  let interval := FLIGHT_GENERATION_INTERVAL direction
  if currentTime - al.lastFlightScheduleTime < interval then
    (false, al)
  else if al.canScheduleFlight = false then
    (false, al)
  else
    let res := al.createAircraft
    if res.1 = false then
      (false, al)
    else
      (true, { res.2 with lastFlightScheduleTime := currentTime })

/-- Modelled from the spec: the scheduling condition as claim C5 states it,
with a last-schedule time recorded per direction.  The repository's Airline.h
has no such per-direction map (`m_lastFlightScheduleTime` is a single
double); this definition exists only to be compared with the code. -/
def claimScheduleFires (lastPerDirection : FlightDirection → ℚ)
    (fleetSize totalAircrafts : Nat) (currentTime : ℚ)
    (direction : FlightDirection) : Bool :=
  decide (FLIGHT_GENERATION_INTERVAL direction ≤ currentTime - lastPerDirection direction ∧
          fleetSize < totalAircrafts)

/-- Flight status, from Flight.h `enum class Status`. -/
inductive FlightStatus where
  | scheduled
  | active
  | completed
  | canceled
  | diverted
  | emergency
deriving DecidableEq, Repr

/-- Flight::isValidStatusTransition, the status transition graph of the
source: Scheduled, Active and Emergency have the listed successors and
Completed, Canceled, Diverted are terminal. -/
def isValidStatusTransition (cur newStatus : FlightStatus) : Bool :=
  match cur with
  | .scheduled =>
    decide (newStatus = FlightStatus.active ∨ newStatus = FlightStatus.emergency ∨
            newStatus = FlightStatus.canceled)
  | .active =>
    decide (newStatus = FlightStatus.completed ∨ newStatus = FlightStatus.canceled ∨
            newStatus = FlightStatus.diverted ∨ newStatus = FlightStatus.emergency)
  | .emergency =>
    decide (newStatus = FlightStatus.completed ∨ newStatus = FlightStatus.canceled ∨
            newStatus = FlightStatus.diverted)
  | .completed => false
  | .canceled => false
  | .diverted => false

/-- The shape of one flight-plan step operation.  Every lambda pushed into
`m_flightPlan` in Flight.cpp is one of exactly three shapes: a bare
`transitionToNextPhase`, a `releaseRunway` followed by
`transitionToNextPhase`, or a `complete()`. -/
inductive PlanAction where
  | transitionNext
  | releaseAndTransition
  | completeFlight
deriving DecidableEq, Repr

/-- One flight-plan step, from Flight.h `FlightPlanStep` (a bound operation
and a relative time offset from activation). -/
structure FlightPlanStep where
  action : PlanAction
  relativeTimeOffset : ℚ
deriving DecidableEq, Repr

/-- Default used to model the unchecked vector indexing
`m_flightPlan[m_currentPlanStep]`; every use site guards the index first. -/
def defaultPlanStep : FlightPlanStep :=
  { action := PlanAction.transitionNext, relativeTimeOffset := 0 }

/-- Flight::createArrivalFlightPlan: steps at 30/60/90/120/150 s; the step at
90 s releases the runway before the Landing to TaxiIn transition. -/
def createArrivalFlightPlan : List FlightPlanStep :=
  [{ action := .transitionNext, relativeTimeOffset := 30 },
   { action := .transitionNext, relativeTimeOffset := 60 },
   { action := .releaseAndTransition, relativeTimeOffset := 90 },
   { action := .transitionNext, relativeTimeOffset := 120 },
   { action := .completeFlight, relativeTimeOffset := 150 }]

/-- Flight::createDepartureFlightPlan: steps at 30/60/75/90/120 s; the step
at 90 s releases the runway before the Climb to Cruise transition. -/
def createDepartureFlightPlan : List FlightPlanStep :=
  [{ action := .transitionNext, relativeTimeOffset := 30 },
   { action := .transitionNext, relativeTimeOffset := 60 },
   { action := .transitionNext, relativeTimeOffset := 75 },
   { action := .releaseAndTransition, relativeTimeOffset := 90 },
   { action := .completeFlight, relativeTimeOffset := 120 }]

/-- Flight::createEmergencyFlightPlan: the expedited variants, at half the
regular offsets (37.5 s is 75/2). -/
def createEmergencyFlightPlan (isArrival : Bool) : List FlightPlanStep :=
  if isArrival then
    [{ action := .transitionNext, relativeTimeOffset := 15 },
     { action := .transitionNext, relativeTimeOffset := 30 },
     { action := .releaseAndTransition, relativeTimeOffset := 45 },
     { action := .transitionNext, relativeTimeOffset := 60 },
     { action := .completeFlight, relativeTimeOffset := 75 }]
  else
    [{ action := .transitionNext, relativeTimeOffset := 15 },
     { action := .transitionNext, relativeTimeOffset := 30 },
     { action := .transitionNext, relativeTimeOffset := 75 / 2 },
     { action := .releaseAndTransition, relativeTimeOffset := 45 },
     { action := .completeFlight, relativeTimeOffset := 60 }]

/-- Flight state, from Flight.h. -/
structure Flight where
  status : FlightStatus
  isEmergency : Bool
  statusReason : String
  scheduledTime : ℚ
  activationTime : ℚ
  estimatedCompletionTime : ℚ
  currentPlanStep : Nat
  flightPlan : List FlightPlanStep
deriving DecidableEq, Repr

/-- Flight::calculateEstimatedCompletionTime. -/
def Flight.calculateEstimatedCompletionTime (f : Flight) : Flight :=
  match f.flightPlan.getLast? with
  | none => { f with estimatedCompletionTime := 0 }
  | some lastStep =>
    if f.status = FlightStatus.active ∨ f.status = FlightStatus.emergency then
      if 0 < f.activationTime then
        { f with estimatedCompletionTime := f.activationTime + lastStep.relativeTimeOffset }
      else
        f
    else
      { f with estimatedCompletionTime := f.scheduledTime + lastStep.relativeTimeOffset }

/-- Flight::createFlightPlan, given the flight's aircraft: clears the plan
and rebuilds the emergency, arrival or departure variant. -/
def Flight.createFlightPlan (f : Flight) (a : Aircraft) : Flight :=
  if f.isEmergency then
    { f with flightPlan := createEmergencyFlightPlan a.isArrival, currentPlanStep := 0 }
  else if a.isArrival then
    { f with flightPlan := createArrivalFlightPlan, currentPlanStep := 0 }
  else
    { f with flightPlan := createDepartureFlightPlan, currentPlanStep := 0 }

/-- The coupled state a Flight's operations act on: the flight record, its
(always present) aircraft, and the one runway the flight's weak
`m_assignedRunway` back-reference can point at.  `flightHasRunway` is true
exactly when the weak reference is engaged (then it designates `runway`). -/
structure World where
  flight : Flight
  aircraft : Aircraft
  runway : Runway
  flightHasRunway : Bool
deriving DecidableEq, Repr

/-- Flight::releaseRunway: fails without an engaged runway reference or when
the runway refuses the release; on success clears the reference. -/
def World.releaseRunway (w : World) (wallNow : ℚ) : Bool × World :=
  if w.flightHasRunway = false then
    (false, w)
  else
    let res := w.runway.releaseAircraft (some w.aircraft) wallNow
    if res.1 = false then
      (false, w)
    else
      (true, { w with runway := res.2, flightHasRunway := false })

/-- The release-and-reset block shared by Flight::complete, Flight::cancel,
Flight::divert and Flight::handleGroundFault: if the weak reference is
engaged, call Runway::releaseAircraft (discarding its result) and reset the
reference unconditionally. -/
def World.dropRunway (w : World) (wallNow : ℚ) : World :=
  if w.flightHasRunway then
    { w with runway := (w.runway.releaseAircraft (some w.aircraft) wallNow).2,
             flightHasRunway := false }
  else
    w

/-- Flight::complete: from a status that may transition to Completed,
releases any runway and enters Completed. -/
def World.complete (w : World) (wallNow : ℚ) : Bool × World :=
  if isValidStatusTransition w.flight.status FlightStatus.completed = false then
    (false, w)
  else
    let w := w.dropRunway wallNow
    (true, { w with flight := { w.flight with status := FlightStatus.completed } })

/-- Flight::cancel: from a status that may transition to Canceled, releases
any runway, enters Canceled and records the reason. -/
def World.cancel (w : World) (reason : String) (wallNow : ℚ) : Bool × World :=
  if isValidStatusTransition w.flight.status FlightStatus.canceled = false then
    (false, w)
  else
    let w := w.dropRunway wallNow
    (true, { w with flight := { w.flight with
                                  status := FlightStatus.canceled,
                                  statusReason := reason } })

/-- Flight::divert: from a status that may transition to Diverted, releases
any runway, enters Diverted and records the reason. -/
def World.divert (w : World) (reason : String) (wallNow : ℚ) : Bool × World :=
  if isValidStatusTransition w.flight.status FlightStatus.diverted = false then
    (false, w)
  else
    let w := w.dropRunway wallNow
    (true, { w with flight := { w.flight with
                                  status := FlightStatus.diverted,
                                  statusReason := reason } })

/-- Flight::activate: only where a transition to Active is valid; enters
Emergency instead when the emergency flag is set, stamps the activation time
and refreshes the estimated completion time. -/
def World.activate (w : World) (currentTime : ℚ) : Bool × World :=
  if isValidStatusTransition w.flight.status FlightStatus.active = false then
    (false, w)
  else
    let st := if w.flight.isEmergency then FlightStatus.emergency else FlightStatus.active
    let f := { w.flight with status := st, activationTime := currentTime }
    (true, { w with flight := f.calculateEstimatedCompletionTime })

/-- Flight::setEmergency.  The revert branch (clearing the flag while in
Emergency status) is unreachable under the outer Scheduled-or-Active guard
but is kept to mirror the source. -/
def World.setEmergency (w : World) (isEmergency : Bool) : World :=
  if w.flight.status = FlightStatus.scheduled ∨ w.flight.status = FlightStatus.active then
    let f := { w.flight with isEmergency := isEmergency }
    if isEmergency = true ∧ f.status ≠ FlightStatus.emergency then
      let f := { f with status := FlightStatus.emergency,
                        flightPlan := createEmergencyFlightPlan w.aircraft.isArrival,
                        currentPlanStep := 0 }
      { w with flight := f.calculateEstimatedCompletionTime }
    else if isEmergency = false ∧ f.status = FlightStatus.emergency then
      let f := { f with status := FlightStatus.active }
      let f := f.createFlightPlan w.aircraft
      { w with flight := f.calculateEstimatedCompletionTime }
    else
      { w with flight := f }
  else
    w

/-- Flight::handleGroundFault: on a faulted aircraft, releases any runway,
enters Canceled with the ground-fault reason and returns true; otherwise
returns false.  Note the source performs the cancellation directly, without
consulting isValidStatusTransition. -/
def World.handleGroundFault (w : World) (wallNow : ℚ) : Bool × World :=
  if w.aircraft.hasGroundFault then
    let w := w.dropRunway wallNow
    (true, { w with flight := { w.flight with
                                  status := FlightStatus.canceled,
                                  statusReason := "Ground fault detected" } })
  else
    (false, w)

/-- Flight::isReadyForNextPhase: active or emergency, a pending plan step,
and enough elapsed time since activation. -/
def World.isReadyForNextPhase (w : World) (currentTime : ℚ) : Bool :=
  if w.flight.status ≠ FlightStatus.active ∧ w.flight.status ≠ FlightStatus.emergency then
    false
  else if w.flight.flightPlan.isEmpty ∨ w.flight.flightPlan.length ≤ w.flight.currentPlanStep then
    false
  else
    decide ((w.flight.flightPlan.getD w.flight.currentPlanStep defaultPlanStep).relativeTimeOffset ≤
            currentTime - w.flight.activationTime)

/-- Runs one bound plan operation (one of the three lambda shapes). -/
def World.runPlanAction (w : World) (action : PlanAction) (wallNow : ℚ)
    (sample : FlightPhase → ℚ) : Bool × World :=
  match action with
  | .transitionNext =>
    let res := w.aircraft.transitionToNextPhase sample
    (res.1, { w with aircraft := res.2 })
  | .releaseAndTransition =>
    let w1 := (w.releaseRunway wallNow).2
    let res := w1.aircraft.transitionToNextPhase sample
    (res.1, { w1 with aircraft := res.2 })
  | .completeFlight =>
    w.complete wallNow

/-- Flight::executeFlightPlanStep: if a step is pending and due, runs its
bound operation, advances the step index regardless of the operation's
result, and after the last step marks the flight Completed. -/
def World.executeFlightPlanStep (w : World) (currentTime wallNow : ℚ)
    (sample : FlightPhase → ℚ) : Bool × World :=
  if w.flight.flightPlan.isEmpty ∨ w.flight.flightPlan.length ≤ w.flight.currentPlanStep then
    (false, w)
  else
    let step := w.flight.flightPlan.getD w.flight.currentPlanStep defaultPlanStep
    if currentTime - w.flight.activationTime < step.relativeTimeOffset then
      (false, w)
    else
      let res := w.runPlanAction step.action wallNow sample
      let w2 : World := { res.2 with
                          flight := { res.2.flight with
                                      currentPlanStep := res.2.flight.currentPlanStep + 1 } }
      let w3 :=
        if w2.flight.flightPlan.length ≤ w2.flight.currentPlanStep then
          (w2.complete wallNow).2
        else
          w2
      (res.1, w3)

/-- Flight::update: a no-op unless Active or Emergency; ticks the aircraft,
cancels on a ground fault, and otherwise executes the next due plan step.
`speedDelta` and `faultRoll` are the oracles of Aircraft::update. -/
def World.update (w : World) (currentTime wallNow speedDelta : ℚ) (faultRoll : Bool)
    (sample : FlightPhase → ℚ) : World :=
  if w.flight.status ≠ FlightStatus.active ∧ w.flight.status ≠ FlightStatus.emergency then
    w
  else
    let w := { w with aircraft := w.aircraft.update speedDelta faultRoll }
    if w.aircraft.hasGroundFault then
      (w.handleGroundFault wallNow).2
    else if w.isReadyForNextPhase currentTime then
      (w.executeFlightPlanStep currentTime wallNow sample).2
    else
      w

/-- Modelled from the spec: the status transition graph exactly as claim C3
lists it, to be compared with the source's isValidStatusTransition. -/
def claimTransitionGraph (cur newStatus : FlightStatus) : Bool :=
  match cur, newStatus with
  | .scheduled, .active => true
  | .scheduled, .emergency => true
  | .scheduled, .canceled => true
  | .active, .emergency => true
  | .active, .completed => true
  | .active, .canceled => true
  | .active, .diverted => true
  | .emergency, .completed => true
  | .emergency, .canceled => true
  | .emergency, .diverted => true
  | _, _ => false

/-- A status observation pair is a path step: either no change, or one edge
of the source transition graph. -/
def followsGraph (pre post : FlightStatus) : Prop :=
  post = pre ∨ isValidStatusTransition pre post = true

/-- Modelled from the spec: the eligibility table exactly as claim C4 words
it, to be compared with the source's two static eligibility checks. -/
def claimEligible (id : RunwayId) (d : FlightDirection) (k : AircraftType) : Bool :=
  match id with
  | .rwyA => decide (d = FlightDirection.north ∨ d = FlightDirection.south)
  | .rwyB => decide (d = FlightDirection.east ∨ d = FlightDirection.west)
  | .rwyC => decide (k = AircraftType.cargo ∨ k = AircraftType.emergency)

/-- A concrete commercial North-arrival aircraft used in witnesses. -/
def acSample : Aircraft :=
  { id := "PIA101", type := AircraftType.commercial,
    direction := FlightDirection.north, currentPhase := FlightPhase.holding,
    currentSpeed := 450, airlineName := some "PIA", assignedRunway := none,
    hasGroundFault := false, activeAVNs := [] }

/-- Every entry of the speed-limit table is a well-formed range. -/
theorem speedLimits_min_le_max (p : FlightPhase) :
    (SPEED_LIMITS p).min ≤ (SPEED_LIMITS p).max := by
  cases p <;> decide

/-- clampQ lands in [lo, hi] whenever lo is at most hi. -/
theorem clampQ_mem (v lo hi : ℚ) (h : lo ≤ hi) :
    lo ≤ clampQ v lo hi ∧ clampQ v lo hi ≤ hi := by
  unfold clampQ
  split
  · exact ⟨le_refl lo, h⟩
  · split
    · exact ⟨h, le_refl hi⟩
    · next h1 h2 => exact ⟨le_of_not_lt h1, le_of_not_lt h2⟩

/-- C10: for every aircraft (every phase has an entry in the speed-limit
table), updateSpeed(delta) sets the speed to the old speed plus delta clamped
into the phase's [min, max] bounds and returns true, so the resulting speed
is always within the current phase's bounds, while setSpeed stores any value
unvalidated and also returns true. -/
theorem C10_updateSpeed_clamps (a : Aircraft) (speedDelta : ℚ) :
    (a.updateSpeed speedDelta).1 = true ∧
    (a.updateSpeed speedDelta).2.currentSpeed =
      clampQ (a.currentSpeed + speedDelta) (SPEED_LIMITS a.currentPhase).min
        (SPEED_LIMITS a.currentPhase).max ∧
    (SPEED_LIMITS a.currentPhase).min ≤ (a.updateSpeed speedDelta).2.currentSpeed ∧
    (a.updateSpeed speedDelta).2.currentSpeed ≤ (SPEED_LIMITS a.currentPhase).max ∧
    ∀ v : ℚ, (a.setSpeed v).1 = true ∧ (a.setSpeed v).2.currentSpeed = v := by
  refine ⟨rfl, rfl, ?_, ?_, fun v => ⟨rfl, rfl⟩⟩
  · exact (clampQ_mem _ _ _ (speedLimits_min_le_max a.currentPhase)).1
  · exact (clampQ_mem _ _ _ (speedLimits_min_le_max a.currentPhase)).2

/-- The source's two eligibility checks agree with the claim's table. -/
theorem eligibility_eq_claim (id : RunwayId) (d : FlightDirection) (k : AircraftType) :
    (isValidRunwayForDirection id d && isValidRunwayForAircraftType id k) =
      claimEligible id d k := by
  cases id <;> cases d <;> cases k <;> decide

/-- C4: assignAircraft fails, with all runway state unchanged, exactly when
the status is not Available, the aircraft is null, or the eligibility table
of the claim rejects the (runway, direction, kind) combination; on success
the status becomes InUse, the aircraft is stored as the occupant and the
usage count increases by one.  The final conjunct checks that the source's
two eligibility predicates coincide with the claim's table. -/
theorem C4_assignAircraft_spec (r : Runway) (a : Option Aircraft) (now : ℚ) :
    ((r.assignAircraft a now).1 = false ↔
       r.status ≠ RunwayStatus.available ∨ a = none ∨
       ∃ x, a = some x ∧ claimEligible r.id x.direction x.type = false) ∧
    ((r.assignAircraft a now).1 = false → (r.assignAircraft a now).2.1 = r) ∧
    (∀ x, a = some x → (r.assignAircraft a now).1 = true →
       (r.assignAircraft a now).2.1.status = RunwayStatus.inUse ∧
       (r.assignAircraft a now).2.1.assignedAircraft = some (x.assignRunway r.id) ∧
       (r.assignAircraft a now).2.1.usageCount = r.usageCount + 1) ∧
    (∀ id d k, (isValidRunwayForDirection id d && isValidRunwayForAircraftType id k) =
       claimEligible id d k) := by
  refine ⟨?_, ?_, ?_, fun id d k => eligibility_eq_claim id d k⟩
  · by_cases hs : r.status = RunwayStatus.available
    · cases a with
      | none => simp [Runway.assignAircraft, hs]
      | some x =>
        have helig := eligibility_eq_claim r.id x.direction x.type
        cases hdir : r.canUseForDirection x.direction with
        | false =>
          have : claimEligible r.id x.direction x.type = false := by
            rw [← helig]
            simp [Runway.canUseForDirection] at hdir
            simp [hdir]
          simp [Runway.assignAircraft, hs, hdir, this]
        | true =>
          cases htyp : r.canUseForAircraftType x.type with
          | false =>
            have : claimEligible r.id x.direction x.type = false := by
              rw [← helig]
              simp [Runway.canUseForDirection] at hdir
              simp [Runway.canUseForAircraftType] at htyp
              simp [hdir, htyp]
            simp [Runway.assignAircraft, hs, hdir, htyp, this]
          | true =>
            have : claimEligible r.id x.direction x.type = true := by
              rw [← helig]
              simp [Runway.canUseForDirection] at hdir
              simp [Runway.canUseForAircraftType] at htyp
              simp [hdir, htyp]
            simp [Runway.assignAircraft, hs, hdir, htyp, this]
    · simp [Runway.assignAircraft, hs]
  · intro hfail
    by_cases hs : r.status = RunwayStatus.available
    · cases a with
      | none => simp [Runway.assignAircraft, hs]
      | some x =>
        cases hdir : r.canUseForDirection x.direction with
        | false => simp [Runway.assignAircraft, hs, hdir]
        | true =>
          cases htyp : r.canUseForAircraftType x.type with
          | false => simp [Runway.assignAircraft, hs, hdir, htyp]
          | true => simp [Runway.assignAircraft, hs, hdir, htyp] at hfail
    · simp [Runway.assignAircraft, hs]
  · intro x hx hok
    subst hx
    by_cases hs : r.status = RunwayStatus.available
    · cases hdir : r.canUseForDirection x.direction with
      | false => simp [Runway.assignAircraft, hs, hdir] at hok
      | true =>
        cases htyp : r.canUseForAircraftType x.type with
        | false => simp [Runway.assignAircraft, hs, hdir, htyp] at hok
        | true => simp [Runway.assignAircraft, hs, hdir, htyp]
    · simp [Runway.assignAircraft, hs] at hok

/-- C4 witness: a commercial aircraft is rejected by RWY-C (eligibility
failure), and the same commercial North arrival is accepted by RWY-A with
the occupant stored and the usage count bumped. -/
theorem C4_assignAircraft_witness :
    ((initRunway RunwayId.rwyC).assignAircraft (some acSample) 0).1 = false ∧
    ((initRunway RunwayId.rwyA).assignAircraft (some acSample) 0).2.1.usageCount = 1 := by
  constructor
  · exact (C4_assignAircraft_spec (initRunway RunwayId.rwyC) (some acSample) 0).1.mpr
      (Or.inr (Or.inr ⟨acSample, rfl, by decide⟩))
  · have h := (C4_assignAircraft_spec (initRunway RunwayId.rwyA) (some acSample) 0).2.2.1
      acSample rfl (by decide)
    exact h.2.2

/-- C5 counterexample: with the fixed-roster PIA airline (capacity 6, empty
fleet, last-schedule timestamp 0), a firing for South at t = 120 makes the
subsequent North call at t = 180 return false, although the claim's
per-direction test (North never fired, so its per-direction last-schedule
time is still 0, and the fleet is below capacity) says it must fire. -/
theorem C5_shared_timestamp_counterexample :
    ((Airline.scheduleFlightIfNeeded
        { name := "PIA", primaryType := AircraftType.commercial, totalAircrafts := 6,
          activeFlights := 4, violationCount := 0, lastFlightScheduleTime := 0,
          fleetSize := 0 } 120 FlightDirection.south).1 = true) ∧
    ((Airline.scheduleFlightIfNeeded
        (Airline.scheduleFlightIfNeeded
          { name := "PIA", primaryType := AircraftType.commercial, totalAircrafts := 6,
            activeFlights := 4, violationCount := 0, lastFlightScheduleTime := 0,
            fleetSize := 0 } 120 FlightDirection.south).2 180 FlightDirection.north).1 = false) ∧
    claimScheduleFires
      (fun d => if d = FlightDirection.south then 120 else 0) 1 6 180
      FlightDirection.north = true := by
  refine ⟨?_, ?_, ?_⟩
  · norm_num [Airline.scheduleFlightIfNeeded, Airline.createAircraft,
              Airline.canScheduleFlight, FLIGHT_GENERATION_INTERVAL]
  · norm_num [Airline.scheduleFlightIfNeeded, Airline.createAircraft,
              Airline.canScheduleFlight, FLIGHT_GENERATION_INTERVAL]
  · rw [claimScheduleFires,
        if_neg (by simp : ¬ (FlightDirection.north = FlightDirection.south))]
    norm_num [FLIGHT_GENERATION_INTERVAL]

/-- C5 amended: scheduleFlightIfNeeded(now, direction) fires if and only if
now minus the airline's single shared last-schedule timestamp is at least the
per-direction interval (North 180 s, South 120 s, East 150 s, West 240 s) and
the fleet is below capacity; on firing the shared timestamp is reset to now,
so a firing for one direction does delay the cadence of the other three
directions. -/
theorem C5_schedule_shared_timestamp (al : Airline) (currentTime : ℚ)
    (direction : FlightDirection) :
    ((al.scheduleFlightIfNeeded currentTime direction).1 = true ↔
      FLIGHT_GENERATION_INTERVAL direction ≤ currentTime - al.lastFlightScheduleTime ∧
      al.fleetSize < al.totalAircrafts) ∧
    ((al.scheduleFlightIfNeeded currentTime direction).1 = true →
      (al.scheduleFlightIfNeeded currentTime direction).2.lastFlightScheduleTime =
        currentTime) ∧
    ((al.scheduleFlightIfNeeded currentTime direction).1 = false →
      (al.scheduleFlightIfNeeded currentTime direction).2 = al) := by
  by_cases hlate : currentTime - al.lastFlightScheduleTime <
      FLIGHT_GENERATION_INTERVAL direction
  · have h1 : al.scheduleFlightIfNeeded currentTime direction = (false, al) := by
      simp [Airline.scheduleFlightIfNeeded, hlate]
    refine ⟨?_, ?_, ?_⟩ <;> rw [h1]
    · constructor
      · intro hfalse
        exact absurd hfalse Bool.false_ne_true
      · intro hc
        exact absurd hc.1 (not_le.mpr hlate)
    · intro hfalse
      exact absurd hfalse Bool.false_ne_true
    · intro _
      rfl
  · by_cases hcap : al.fleetSize < al.totalAircrafts
    · have h1 : al.scheduleFlightIfNeeded currentTime direction =
          (true, { al with fleetSize := al.fleetSize + 1,
                           activeFlights := al.activeFlights + 1,
                           lastFlightScheduleTime := currentTime }) := by
        simp [Airline.scheduleFlightIfNeeded, hlate, Airline.createAircraft,
              Airline.canScheduleFlight, hcap]
      refine ⟨?_, ?_, ?_⟩ <;> rw [h1]
      · simp [not_lt.mp hlate, hcap]
      · intro _
        rfl
      · intro hfalse
        exact absurd hfalse.symm Bool.false_ne_true
    · have h1 : al.scheduleFlightIfNeeded currentTime direction = (false, al) := by
        simp [Airline.scheduleFlightIfNeeded, hlate, Airline.canScheduleFlight, hcap]
      refine ⟨?_, ?_, ?_⟩ <;> rw [h1]
      · constructor
        · intro hfalse
          exact absurd hfalse Bool.false_ne_true
        · intro hc
          exact absurd hc.2 hcap
      · intro hfalse
        exact absurd hfalse Bool.false_ne_true
      · intro _
        rfl

/-- C5 witness: for the PIA roster airline with shared timestamp 0, a South
call at t = 120 fires. -/
theorem C5_schedule_witness :
    (Airline.scheduleFlightIfNeeded
      { name := "PIA", primaryType := AircraftType.commercial, totalAircrafts := 6,
        activeFlights := 4, violationCount := 0, lastFlightScheduleTime := 0,
        fleetSize := 0 } 120 FlightDirection.south).1 = true :=
  (C5_schedule_shared_timestamp _ 120 FlightDirection.south).1.mpr
    (by norm_num [FLIGHT_GENERATION_INTERVAL])

/-- recordSpeedDataPoint only touches the speed history. -/
theorem recordSpeedDataPoint_violations (st : SpeedMonitor) (i : String) (v : ℚ) :
    (st.recordSpeedDataPoint i v).violations = st.violations := rfl

/-- C2 counterexample: an aircraft held in Holding at 650 km/h (bounds
400..600) is monitored twice without any phase change; the monitor creates a
second violation record and issues a second AVN on the second call, so at
most one record per unchanged phase is false. -/
theorem C2_duplicate_avn_counterexample :
    ((SpeedMonitor.monitorAircraftSpeed
        (SpeedMonitor.monitorAircraftSpeed initSpeedMonitor
          (some { acSample with currentSpeed := 650 }) 0).2.1
        (SpeedMonitor.monitorAircraftSpeed initSpeedMonitor
          (some { acSample with currentSpeed := 650 }) 0).2.2 1).2.1.violations.length = 2) ∧
    (((SpeedMonitor.monitorAircraftSpeed
        (SpeedMonitor.monitorAircraftSpeed initSpeedMonitor
          (some { acSample with currentSpeed := 650 }) 0).2.1
        (SpeedMonitor.monitorAircraftSpeed initSpeedMonitor
          (some { acSample with currentSpeed := 650 }) 0).2.2 1).2.2.map
      fun x => x.activeAVNs.length) = some 2) ∧
    (((SpeedMonitor.monitorAircraftSpeed
        (SpeedMonitor.monitorAircraftSpeed initSpeedMonitor
          (some { acSample with currentSpeed := 650 }) 0).2.1
        (SpeedMonitor.monitorAircraftSpeed initSpeedMonitor
          (some { acSample with currentSpeed := 650 }) 0).2.2 1).2.2.map
      fun x => x.currentPhase) = some FlightPhase.holding) := by
  decide

/-- C2 amended: monitorAircraftSpeed holds no per-aircraft set of
already-violated phases; it fires exactly when the current speed is outside
the phase bounds or the rapid-change detector trips, and every firing call
appends one violation record and issues one more AVN, phase unchanged, with
no suppression between consecutive calls in the same phase. -/
theorem C2_monitor_no_suppression (st : SpeedMonitor) (a : Aircraft) (t : ℚ) :
    ((st.monitorAircraftSpeed (some a) t).1 = true ↔
      (a.currentSpeed < (SPEED_LIMITS a.currentPhase).min ∨
       a.currentSpeed > (SPEED_LIMITS a.currentPhase).max) ∨
      (st.recordSpeedDataPoint a.id a.currentSpeed).detectRapidSpeedChanges a.id = true) ∧
    ((st.monitorAircraftSpeed (some a) t).2.1.violations.length =
      st.violations.length +
        (if (st.monitorAircraftSpeed (some a) t).1 = true then 1 else 0)) ∧
    (((st.monitorAircraftSpeed (some a) t).2.2.map fun x => x.activeAVNs.length) =
      some (a.activeAVNs.length +
        (if (st.monitorAircraftSpeed (some a) t).1 = true then 1 else 0))) ∧
    (((st.monitorAircraftSpeed (some a) t).2.2.map fun x => x.currentPhase) =
      some a.currentPhase) := by
  have hun : st.monitorAircraftSpeed (some a) t =
      (if (decide (a.currentSpeed < (SPEED_LIMITS a.currentPhase).min ∨
              a.currentSpeed > (SPEED_LIMITS a.currentPhase).max) ||
            (st.recordSpeedDataPoint a.id a.currentSpeed).detectRapidSpeedChanges a.id) = true
       then
        (true,
         (st.recordSpeedDataPoint a.id a.currentSpeed).recordViolation a a.currentSpeed
           (SPEED_LIMITS a.currentPhase).min (SPEED_LIMITS a.currentPhase).max t,
         some (SpeedMonitor.generateAVN a
           ((st.recordSpeedDataPoint a.id a.currentSpeed).detectRapidSpeedChanges a.id) t))
       else
        (false, st.recordSpeedDataPoint a.id a.currentSpeed, some a)) := rfl
  cases hfire : (decide (a.currentSpeed < (SPEED_LIMITS a.currentPhase).min ∨
      a.currentSpeed > (SPEED_LIMITS a.currentPhase).max) ||
      (st.recordSpeedDataPoint a.id a.currentSpeed).detectRapidSpeedChanges a.id) with
  | false =>
    rw [hfire] at hun
    rw [Bool.or_eq_false_iff] at hfire
    have hbounds := of_decide_eq_false hfire.1
    refine ⟨?_, ?_, ?_, ?_⟩ <;> rw [hun]
    · simp [hbounds, hfire.2]
    · simp [recordSpeedDataPoint_violations]
    · simp
    · simp
  | true =>
    rw [hfire] at hun
    rw [Bool.or_eq_true] at hfire
    have hor : (a.currentSpeed < (SPEED_LIMITS a.currentPhase).min ∨
        a.currentSpeed > (SPEED_LIMITS a.currentPhase).max) ∨
        (st.recordSpeedDataPoint a.id a.currentSpeed).detectRapidSpeedChanges a.id = true := by
      rcases hfire with hb | hr
      · exact Or.inl (of_decide_eq_true hb)
      · exact Or.inr hr
    refine ⟨?_, ?_, ?_, ?_⟩ <;> rw [hun]
    · simp [hor]
    · simp [SpeedMonitor.recordViolation, recordSpeedDataPoint_violations]
    · simp [SpeedMonitor.generateAVN, Aircraft.issueAVN]
    · simp [SpeedMonitor.generateAVN, Aircraft.issueAVN]

/-- A successful assignAircraft call forces the Available status and yields
the explicit post-state: occupant stored (with the runway id written back to
the aircraft), status InUse, usage count bumped, assignment time stamped. -/
theorem assign_success_form (r : Runway) (a : Aircraft) (t : ℚ)
    (h : (r.assignAircraft (some a) t).1 = true) :
    r.status = RunwayStatus.available ∧
    r.assignAircraft (some a) t =
      (true,
       { r with assignedAircraft := some (a.assignRunway r.id),
                status := RunwayStatus.inUse, lastAssignmentTime := t,
                usageCount := r.usageCount + 1 },
       some (a.assignRunway r.id)) := by
  by_cases hs : r.status = RunwayStatus.available
  · cases hdir : r.canUseForDirection a.direction with
    | false => simp [Runway.assignAircraft, hs, hdir] at h
    | true =>
      cases htyp : r.canUseForAircraftType a.type with
      | false => simp [Runway.assignAircraft, hs, hdir, htyp] at h
      | true =>
        refine ⟨hs, ?_⟩
        simp [Runway.assignAircraft, hs, hdir, htyp]
  · simp [Runway.assignAircraft, hs] at h

/-- C8: from Available with usage count n and total usage time t_prev, a
successful assignAircraft(a) followed by releaseAircraft of the same
aircraft succeeds and returns the runway to Available with usage count n+1
and total usage time at least t_prev (the wall clock being monotone,
t1 at most t2). -/
theorem C8_assign_release_roundtrip (r : Runway) (a : Aircraft) (t1 t2 : ℚ)
    (hassign : (r.assignAircraft (some a) t1).1 = true) (ht : t1 ≤ t2) :
    ((r.assignAircraft (some a) t1).2.1.releaseAircraft
        ((r.assignAircraft (some a) t1).2.2) t2).1 = true ∧
    ((r.assignAircraft (some a) t1).2.1.releaseAircraft
        ((r.assignAircraft (some a) t1).2.2) t2).2.status = RunwayStatus.available ∧
    ((r.assignAircraft (some a) t1).2.1.releaseAircraft
        ((r.assignAircraft (some a) t1).2.2) t2).2.usageCount = r.usageCount + 1 ∧
    r.totalUsageTime ≤
      ((r.assignAircraft (some a) t1).2.1.releaseAircraft
        ((r.assignAircraft (some a) t1).2.2) t2).2.totalUsageTime := by
  obtain ⟨hs, heq⟩ := assign_success_form r a t1 hassign
  rw [heq]
  have hfloor : (0 : ℚ) ≤ ((⌊t2 - t1⌋ : ℤ) : ℚ) := by
    have h0 : (0 : ℤ) ≤ ⌊t2 - t1⌋ := Int.floor_nonneg.mpr (by linarith)
    exact_mod_cast h0
  refine ⟨?_, ?_, ?_, ?_⟩ <;> simp [Runway.releaseAircraft]
  exact Int.floor_nonneg.mpr (by linarith)

/-- C8 witness: RWY-A assigned to the sample aircraft at instant 0 and
released at instant 5 is Available again with usage count 1. -/
theorem C8_assign_release_witness :
    (((initRunway RunwayId.rwyA).assignAircraft (some acSample) 0).2.1.releaseAircraft
        (((initRunway RunwayId.rwyA).assignAircraft (some acSample) 0).2.2) 5).2.status =
      RunwayStatus.available :=
  (C8_assign_release_roundtrip (initRunway RunwayId.rwyA) acSample 0 5 (by decide)
    (by decide)).2.1

/-- Every allowed runway operation (assign, release, or a status set with a
target other than InUse) preserves the occupancy invariant. -/
theorem runwayInv_step (r : Runway) (op : RunwayOp) (hop : op.allowed = true)
    (h : runwayInv r) : runwayInv (r.step op) := by
  cases op with
  | assign a t =>
    by_cases hs : r.status = RunwayStatus.available
    · cases a with
      | none => simpa [Runway.step, Runway.assignAircraft, hs] using h
      | some x =>
        cases hdir : r.canUseForDirection x.direction with
        | false => simpa [Runway.step, Runway.assignAircraft, hs, hdir] using h
        | true =>
          cases htyp : r.canUseForAircraftType x.type with
          | false => simpa [Runway.step, Runway.assignAircraft, hs, hdir, htyp] using h
          | true => simp [Runway.step, Runway.assignAircraft, hs, hdir, htyp, runwayInv]
    · simpa [Runway.step, Runway.assignAircraft, hs] using h
  | release a t =>
    by_cases hs : r.status = RunwayStatus.inUse
    · cases hocc : r.assignedAircraft with
      | none => simpa [Runway.step, Runway.releaseAircraft, hs, hocc] using h
      | some occ =>
        cases a with
        | none => simpa [Runway.step, Runway.releaseAircraft, hs, hocc] using h
        | some x =>
          by_cases hid : occ.id ≠ x.id
          · simpa [Runway.step, Runway.releaseAircraft, hs, hocc, hid] using h
          · simp [Runway.step, Runway.releaseAircraft, hs, hocc, hid, runwayInv]
    · simpa [Runway.step, Runway.releaseAircraft, hs] using h
  | set s t =>
    have hts : s ≠ RunwayStatus.inUse := by simpa [RunwayOp.allowed] using hop
    by_cases hacc : (r.status = RunwayStatus.inUse ∧
        (s = RunwayStatus.maintenance ∨ s = RunwayStatus.weatherClosed) ∧
        r.assignedAircraft.isSome = true)
    · simp [Runway.step, Runway.setStatus, hacc, hts, runwayInv]
    · simp [Runway.step, Runway.setStatus, hacc, hts, runwayInv]

/-- Under allowed operations, a runway not InUse becomes InUse only from
Available (only assignAircraft can make that transition). -/
theorem step_inUse_from_available (r : Runway) (op : RunwayOp)
    (hop : op.allowed = true) (hpre : r.status ≠ RunwayStatus.inUse)
    (hpost : (r.step op).status = RunwayStatus.inUse) :
    r.status = RunwayStatus.available := by
  cases op with
  | assign a t =>
    by_cases hs : r.status = RunwayStatus.available
    · exact hs
    · simp [Runway.step, Runway.assignAircraft, hs] at hpost
      exact absurd hpost hpre
  | release a t =>
    simp [Runway.step, Runway.releaseAircraft, hpre] at hpost
  | set s t =>
    have hts : s ≠ RunwayStatus.inUse := by simpa [RunwayOp.allowed] using hop
    by_cases hacc : (r.status = RunwayStatus.inUse ∧
        (s = RunwayStatus.maintenance ∨ s = RunwayStatus.weatherClosed) ∧
        r.assignedAircraft.isSome = true)
    · simp [Runway.step, Runway.setStatus, hacc, hts] at hpost
    · simp [Runway.step, Runway.setStatus, hacc, hts] at hpost

/-- The occupancy invariant holds after any allowed operation sequence. -/
theorem runwayInv_run (r : Runway) (ops : List RunwayOp) (h : runwayInv r)
    (hops : ∀ op ∈ ops, op.allowed = true) : runwayInv (r.run ops) := by
  induction ops generalizing r with
  | nil => simpa [Runway.run] using h
  | cons op rest ih =>
    have h1 : runwayInv (r.step op) :=
      runwayInv_step r op (hops op (List.mem_cons_self op rest)) h
    have h2 : ∀ o ∈ rest, o.allowed = true :=
      fun o ho => hops o (List.mem_cons_of_mem op ho)
    simpa [Runway.run, List.foldl_cons] using ih (r.step op) h1 h2

/-- C1 counterexample: the public setStatus(InUse) on a fresh Available
runway produces status InUse with no stored occupant, breaking the claimed
equivalence (and it fires from any status, not only Available). -/
theorem C1_set_inuse_counterexample :
    ¬ runwayInv (Runway.run (initRunway RunwayId.rwyA) [RunwayOp.set RunwayStatus.inUse 0]) ∧
    (Runway.run (initRunway RunwayId.rwyA)
      [RunwayOp.set RunwayStatus.inUse 0]).status = RunwayStatus.inUse ∧
    (Runway.run (initRunway RunwayId.rwyA)
      [RunwayOp.set RunwayStatus.inUse 0]).assignedAircraft = none := by
  decide

/-- C1 amended: under any sequence of assignAircraft, releaseAircraft and
setStatus operations in which no setStatus targets InUse, a runway starting
from its constructor state satisfies status = InUse if and only if an
aircraft is stored as its occupant; and under such operations only a runway
whose status is Available may transition to InUse (a direct setStatus(InUse)
violates both, as the counterexample shows). -/
theorem C1_runway_occupancy_amended (id : RunwayId) (ops : List RunwayOp)
    (hops : ∀ op ∈ ops, RunwayOp.allowed op = true) :
    runwayInv (Runway.run (initRunway id) ops) ∧
    (∀ r : Runway, ∀ op : RunwayOp, RunwayOp.allowed op = true →
      r.status ≠ RunwayStatus.inUse → (r.step op).status = RunwayStatus.inUse →
      r.status = RunwayStatus.available) := by
  constructor
  · exact runwayInv_run (initRunway id) ops (by simp [runwayInv, initRunway]) hops
  · exact fun r op hop hpre hpost => step_inUse_from_available r op hop hpre hpost

/-- C1 witness: an assign, a release by the same aircraft and a maintenance
closure on RWY-A keep the occupancy invariant. -/
theorem C1_runway_occupancy_witness :
    runwayInv (Runway.run (initRunway RunwayId.rwyA)
      [RunwayOp.assign (some acSample) 0, RunwayOp.release (some acSample) 3,
       RunwayOp.set RunwayStatus.maintenance 4]) :=
  (C1_runway_occupancy_amended RunwayId.rwyA
    [RunwayOp.assign (some acSample) 0, RunwayOp.release (some acSample) 3,
     RunwayOp.set RunwayStatus.maintenance 4] (by decide)).1

/-- Aircraft::update never changes the aircraft identity. -/
theorem aircraftUpdate_id (a : Aircraft) (sd : ℚ) (fr : Bool) :
    (a.update sd fr).id = a.id := by
  unfold Aircraft.update
  dsimp only
  split <;> rfl

/-- Aircraft::update never clears an existing ground fault. -/
theorem aircraftUpdate_fault (a : Aircraft) (sd : ℚ) (fr : Bool)
    (h : a.hasGroundFault = true) : (a.update sd fr).hasGroundFault = true := by
  unfold Aircraft.update
  dsimp only
  split <;> simp [h]

/-- calculateEstimatedCompletionTime only touches the estimate field. -/
theorem calcECT_status (f : Flight) :
    f.calculateEstimatedCompletionTime.status = f.status := by
  unfold Flight.calculateEstimatedCompletionTime
  split
  · rfl
  · split
    · split <;> rfl
    · rfl

/-- Flight::releaseRunway leaves the flight record and aircraft untouched. -/
theorem releaseRunway_flight (w : World) (wt : ℚ) :
    (w.releaseRunway wt).2.flight = w.flight ∧
    (w.releaseRunway wt).2.aircraft = w.aircraft := by
  unfold World.releaseRunway
  split
  · exact ⟨rfl, rfl⟩
  · dsimp only
    split
    · exact ⟨rfl, rfl⟩
    · exact ⟨rfl, rfl⟩

/-- The shared release-and-reset block leaves flight and aircraft alone. -/
theorem dropRunway_flight (w : World) (wt : ℚ) :
    (w.dropRunway wt).flight = w.flight ∧ (w.dropRunway wt).aircraft = w.aircraft := by
  unfold World.dropRunway
  split
  · exact ⟨rfl, rfl⟩
  · exact ⟨rfl, rfl⟩

/-- Flight::complete leaves the plan and step index alone. -/
theorem complete_flightPlan (w : World) (wt : ℚ) :
    (w.complete wt).2.flight.flightPlan = w.flight.flightPlan ∧
    (w.complete wt).2.flight.currentPlanStep = w.flight.currentPlanStep := by
  unfold World.complete
  split
  · exact ⟨rfl, rfl⟩
  · simp [(dropRunway_flight w wt).1]

/-- Flight::complete either changes nothing or lands in Completed. -/
theorem complete_status_cases (w : World) (wt : ℚ) :
    (w.complete wt).2.flight.status = w.flight.status ∨
    (w.complete wt).2.flight.status = FlightStatus.completed := by
  unfold World.complete
  split
  · exact Or.inl rfl
  · exact Or.inr rfl

/-- Flight::complete from Active or Emergency lands in Completed. -/
theorem complete_active (w : World) (wt : ℚ)
    (h : w.flight.status = FlightStatus.active ∨
         w.flight.status = FlightStatus.emergency) :
    (w.complete wt).2.flight.status = FlightStatus.completed := by
  unfold World.complete
  rcases h with h | h <;> rw [h] <;> simp [isValidStatusTransition]

/-- Flight::complete on a Completed flight fails and changes nothing. -/
theorem complete_completed_noop (w : World) (wt : ℚ)
    (h : w.flight.status = FlightStatus.completed) :
    (w.complete wt).1 = false ∧ (w.complete wt).2 = w := by
  unfold World.complete
  rw [h]
  simp [isValidStatusTransition]

/-- Plan operations leave the step index and the plan list alone. -/
theorem runPlanAction_planStep (w : World) (act : PlanAction) (wt : ℚ)
    (sample : FlightPhase → ℚ) :
    (w.runPlanAction act wt sample).2.flight.currentPlanStep =
      w.flight.currentPlanStep ∧
    (w.runPlanAction act wt sample).2.flight.flightPlan = w.flight.flightPlan := by
  cases act with
  | transitionNext => exact ⟨rfl, rfl⟩
  | releaseAndTransition =>
    unfold World.runPlanAction
    simp [(releaseRunway_flight w wt).1]
  | completeFlight =>
    exact ⟨(complete_flightPlan w wt).2, (complete_flightPlan w wt).1⟩

/-- A plan operation either leaves the status alone or completes the
flight. -/
theorem runPlanAction_status (w : World) (act : PlanAction) (wt : ℚ)
    (sample : FlightPhase → ℚ) :
    (w.runPlanAction act wt sample).2.flight.status = w.flight.status ∨
    (w.runPlanAction act wt sample).2.flight.status = FlightStatus.completed := by
  cases act with
  | transitionNext => exact Or.inl rfl
  | releaseAndTransition =>
    left
    unfold World.runPlanAction
    simp [(releaseRunway_flight w wt).1]
  | completeFlight => exact complete_status_cases w wt

/-- executeFlightPlanStep either leaves the status alone or completes the
flight (via the step operation, the trailing completion, or both). -/
theorem exec_status_cases (w : World) (ct wt : ℚ) (sample : FlightPhase → ℚ) :
    (w.executeFlightPlanStep ct wt sample).2.flight.status = w.flight.status ∨
    (w.executeFlightPlanStep ct wt sample).2.flight.status = FlightStatus.completed := by
  unfold World.executeFlightPlanStep
  split
  · exact Or.inl rfl
  · dsimp only
    split
    · exact Or.inl rfl
    · dsimp only
      split
      · rcases complete_status_cases
          { (w.runPlanAction
              (w.flight.flightPlan.getD w.flight.currentPlanStep defaultPlanStep).action
              wt sample).2 with
            flight := { (w.runPlanAction
                (w.flight.flightPlan.getD w.flight.currentPlanStep defaultPlanStep).action
                wt sample).2.flight with
              currentPlanStep := (w.runPlanAction
                (w.flight.flightPlan.getD w.flight.currentPlanStep defaultPlanStep).action
                wt sample).2.flight.currentPlanStep + 1 } } wt with h | h
        · rw [h]
          exact runPlanAction_status w _ wt sample
        · exact Or.inr h
      · exact runPlanAction_status w _ wt sample

/-- When a due step exists, executeFlightPlanStep advances the index by one
(whatever the operation returned) and leaves the plan list alone. -/
theorem exec_advances (w : World) (ct wt : ℚ) (sample : FlightPhase → ℚ)
    (hidx : w.flight.currentPlanStep < w.flight.flightPlan.length)
    (hdue : (w.flight.flightPlan.getD w.flight.currentPlanStep
        defaultPlanStep).relativeTimeOffset ≤ ct - w.flight.activationTime) :
    (w.executeFlightPlanStep ct wt sample).2.flight.currentPlanStep =
      w.flight.currentPlanStep + 1 ∧
    (w.executeFlightPlanStep ct wt sample).2.flight.flightPlan =
      w.flight.flightPlan := by
  have hne : ¬(w.flight.flightPlan.isEmpty = true ∨
      w.flight.flightPlan.length ≤ w.flight.currentPlanStep) := by
    rintro (he | hle)
    · rw [List.isEmpty_iff] at he
      rw [he] at hidx
      simp at hidx
    · exact absurd hidx (not_lt.mpr hle)
  have hnotlt : ¬(ct - w.flight.activationTime <
      (w.flight.flightPlan.getD w.flight.currentPlanStep
        defaultPlanStep).relativeTimeOffset) := not_lt.mpr hdue
  unfold World.executeFlightPlanStep
  rw [if_neg hne]
  dsimp only
  rw [if_neg hnotlt]
  dsimp only
  obtain ⟨hstep, hplan⟩ := runPlanAction_planStep w
    (w.flight.flightPlan.getD w.flight.currentPlanStep defaultPlanStep).action wt sample
  split
  · constructor
    · rw [(complete_flightPlan _ wt).2]
      dsimp only
      rw [hstep]
    · rw [(complete_flightPlan _ wt).1]
      dsimp only
      rw [hplan]
  · constructor
    · dsimp only
      rw [hstep]
    · dsimp only
      rw [hplan]

/-- Flight::activate only moves along a graph edge. -/
theorem activate_followsGraph (w : World) (t : ℚ) :
    followsGraph w.flight.status (w.activate t).2.flight.status := by
  unfold World.activate followsGraph
  split
  · exact Or.inl rfl
  · next hvalid =>
    right
    dsimp only
    rw [calcECT_status]
    have hsch : w.flight.status = FlightStatus.scheduled := by
      cases hw : w.flight.status <;>
        first
        | rfl
        | (rw [hw] at hvalid; simp [isValidStatusTransition] at hvalid)
    rw [hsch]
    cases w.flight.isEmergency <;> simp [isValidStatusTransition]

/-- Flight::complete only moves along a graph edge. -/
theorem complete_followsGraph (w : World) (t : ℚ) :
    followsGraph w.flight.status (w.complete t).2.flight.status := by
  unfold World.complete followsGraph
  split
  · exact Or.inl rfl
  · next hvalid =>
    right
    simpa using hvalid

/-- Flight::cancel only moves along a graph edge. -/
theorem cancel_followsGraph (w : World) (reason : String) (t : ℚ) :
    followsGraph w.flight.status (w.cancel reason t).2.flight.status := by
  unfold World.cancel followsGraph
  split
  · exact Or.inl rfl
  · next hvalid =>
    right
    simpa using hvalid

/-- Flight::divert only moves along a graph edge. -/
theorem divert_followsGraph (w : World) (reason : String) (t : ℚ) :
    followsGraph w.flight.status (w.divert reason t).2.flight.status := by
  unfold World.divert followsGraph
  split
  · exact Or.inl rfl
  · next hvalid =>
    right
    simpa using hvalid

/-- Flight::setEmergency only moves along a graph edge. -/
theorem setEmergency_followsGraph (w : World) (b : Bool) :
    followsGraph w.flight.status (w.setEmergency b).flight.status := by
  unfold World.setEmergency followsGraph
  split
  · next houter =>
    dsimp only
    split
    · right
      rw [calcECT_status]
      rcases houter with h | h <;> rw [h] <;> simp [isValidStatusTransition]
    · split
      · next hcond2 =>
        rcases houter with h | h <;> rw [h] at hcond2 <;> simp at hcond2
      · exact Or.inl rfl
  · exact Or.inl rfl

/-- Flight::handleGroundFault moves along a graph edge whenever the flight is
not already Completed or Diverted (from those two terminal statuses it can
still cancel, which is the defect claim C3 is corrected for). -/
theorem handleGroundFault_followsGraph (w : World) (wt : ℚ)
    (h1 : w.flight.status ≠ FlightStatus.completed)
    (h2 : w.flight.status ≠ FlightStatus.diverted) :
    followsGraph w.flight.status (w.handleGroundFault wt).2.flight.status := by
  unfold World.handleGroundFault followsGraph
  split
  · dsimp only
    cases hw : w.flight.status with
    | scheduled => right; decide
    | active => right; decide
    | emergency => right; decide
    | canceled => exact Or.inl rfl
    | completed => exact absurd hw h1
    | diverted => exact absurd hw h2
  · exact Or.inl rfl

/-- Flight::update only moves along a graph edge. -/
theorem update_followsGraph (w : World) (ct wt sd : ℚ) (fr : Bool)
    (sample : FlightPhase → ℚ) :
    followsGraph w.flight.status (w.update ct wt sd fr sample).flight.status := by
  unfold World.update
  split
  · exact Or.inl rfl
  · next hact =>
    have hst : w.flight.status = FlightStatus.active ∨
        w.flight.status = FlightStatus.emergency := by
      rcases not_and_or.mp hact with h | h
      · exact Or.inl (not_not.mp h)
      · exact Or.inr (not_not.mp h)
    have hne1 : w.flight.status ≠ FlightStatus.completed := by
      rcases hst with h | h <;> rw [h] <;> simp
    have hne2 : w.flight.status ≠ FlightStatus.diverted := by
      rcases hst with h | h <;> rw [h] <;> simp
    dsimp only
    split
    · exact handleGroundFault_followsGraph
        { w with aircraft := w.aircraft.update sd fr } wt hne1 hne2
    · split
      · rcases exec_status_cases { w with aircraft := w.aircraft.update sd fr }
          ct wt sample with h | h
        · exact Or.inl h
        · right
          rw [h]
          rcases hst with hs | hs <;> rw [hs] <;> decide
      · exact Or.inl rfl

/-- A concrete active North-arrival flight at the start of the regular
arrival plan, used in witnesses and counterexamples. -/
def flightSample : Flight :=
  { status := FlightStatus.active, isEmergency := false, statusReason := "",
    scheduledTime := 0, activationTime := 0, estimatedCompletionTime := 150,
    currentPlanStep := 0, flightPlan := createArrivalFlightPlan }

/-- C3 counterexample: handleGroundFault called on a Completed flight whose
aircraft has a ground fault returns success and moves the status to
Canceled, although Completed is terminal in the transition graph, so the
claim that every public operation follows a graph edge (and fails otherwise)
is false. -/
theorem C3_terminal_cancel_counterexample :
    (World.handleGroundFault
      { flight := { flightSample with status := FlightStatus.completed },
        aircraft := { acSample with hasGroundFault := true },
        runway := initRunway RunwayId.rwyA, flightHasRunway := false } 0).1 = true ∧
    (World.handleGroundFault
      { flight := { flightSample with status := FlightStatus.completed },
        aircraft := { acSample with hasGroundFault := true },
        runway := initRunway RunwayId.rwyA, flightHasRunway := false }
      0).2.flight.status = FlightStatus.canceled ∧
    isValidStatusTransition FlightStatus.completed FlightStatus.canceled = false := by
  decide

/-- C3 amended: the source's isValidStatusTransition is exactly the claimed
graph (Scheduled to Active/Emergency/Canceled, Active to Emergency/Completed/
Canceled/Diverted, Emergency to Completed/Canceled/Diverted, the rest
terminal); activate, complete, cancel, divert, setEmergency and update each
leave the status unchanged or follow one edge; a second complete() on a
completed flight returns failure and changes nothing; but handleGroundFault
bypasses the check, so it follows the graph only from a status other than
Completed and Diverted — on those two terminal statuses it cancels the
flight anyway (see the counterexample). -/
theorem C3_status_graph_amended :
    (∀ cur newStatus : FlightStatus,
      isValidStatusTransition cur newStatus = claimTransitionGraph cur newStatus) ∧
    (∀ w : World, ∀ t : ℚ,
      followsGraph w.flight.status (w.activate t).2.flight.status) ∧
    (∀ w : World, ∀ t : ℚ,
      followsGraph w.flight.status (w.complete t).2.flight.status) ∧
    (∀ w : World, ∀ reason : String, ∀ t : ℚ,
      followsGraph w.flight.status (w.cancel reason t).2.flight.status) ∧
    (∀ w : World, ∀ reason : String, ∀ t : ℚ,
      followsGraph w.flight.status (w.divert reason t).2.flight.status) ∧
    (∀ w : World, ∀ b : Bool,
      followsGraph w.flight.status (w.setEmergency b).flight.status) ∧
    (∀ w : World, ∀ ct wt sd : ℚ, ∀ fr : Bool, ∀ sample : FlightPhase → ℚ,
      followsGraph w.flight.status (w.update ct wt sd fr sample).flight.status) ∧
    (∀ w : World, ∀ t : ℚ, w.flight.status ≠ FlightStatus.completed →
      w.flight.status ≠ FlightStatus.diverted →
      followsGraph w.flight.status (w.handleGroundFault t).2.flight.status) ∧
    (∀ w : World, ∀ t : ℚ, w.flight.status = FlightStatus.completed →
      (w.complete t).1 = false ∧ (w.complete t).2 = w) := by
  refine ⟨fun cur newStatus => by cases cur <;> cases newStatus <;> rfl,
          activate_followsGraph, complete_followsGraph,
          cancel_followsGraph, divert_followsGraph, setEmergency_followsGraph,
          update_followsGraph, handleGroundFault_followsGraph,
          fun w t h => complete_completed_noop w t h⟩

/-- C3 witness: a second complete() on a completed flight returns false. -/
theorem C3_status_graph_witness :
    (World.complete
      { flight := { flightSample with status := FlightStatus.completed },
        aircraft := acSample, runway := initRunway RunwayId.rwyA,
        flightHasRunway := false } 0).1 = false :=
  (C3_status_graph_amended.2.2.2.2.2.2.2.2 _ 0 rfl).1

/-- When the last pending plan step is executed, the trailing completion
marks the flight Completed (whether the step operation succeeded or not). -/
theorem exec_completes_at_end (w : World) (ct wt : ℚ) (sample : FlightPhase → ℚ)
    (hst : w.flight.status = FlightStatus.active ∨
           w.flight.status = FlightStatus.emergency)
    (hidx : w.flight.currentPlanStep < w.flight.flightPlan.length)
    (hdue : (w.flight.flightPlan.getD w.flight.currentPlanStep
        defaultPlanStep).relativeTimeOffset ≤ ct - w.flight.activationTime)
    (hlast : w.flight.flightPlan.length ≤ w.flight.currentPlanStep + 1) :
    (w.executeFlightPlanStep ct wt sample).2.flight.status =
      FlightStatus.completed := by
  have hne : ¬(w.flight.flightPlan.isEmpty = true ∨
      w.flight.flightPlan.length ≤ w.flight.currentPlanStep) := by
    rintro (he | hle)
    · rw [List.isEmpty_iff] at he
      rw [he] at hidx
      simp at hidx
    · exact absurd hidx (not_lt.mpr hle)
  have hnotlt : ¬(ct - w.flight.activationTime <
      (w.flight.flightPlan.getD w.flight.currentPlanStep
        defaultPlanStep).relativeTimeOffset) := not_lt.mpr hdue
  unfold World.executeFlightPlanStep
  rw [if_neg hne]
  dsimp only
  rw [if_neg hnotlt]
  dsimp only
  obtain ⟨hstep, hplan⟩ := runPlanAction_planStep w
    (w.flight.flightPlan.getD w.flight.currentPlanStep defaultPlanStep).action wt sample
  split
  · rcases runPlanAction_status w
        (w.flight.flightPlan.getD w.flight.currentPlanStep defaultPlanStep).action
        wt sample with h | h
    · apply complete_active
      dsimp only
      rw [h]
      exact hst
    · have hnoop := complete_completed_noop
        { (w.runPlanAction
            (w.flight.flightPlan.getD w.flight.currentPlanStep defaultPlanStep).action
            wt sample).2 with
          flight := { (w.runPlanAction
              (w.flight.flightPlan.getD w.flight.currentPlanStep defaultPlanStep).action
              wt sample).2.flight with
            currentPlanStep := (w.runPlanAction
              (w.flight.flightPlan.getD w.flight.currentPlanStep defaultPlanStep).action
              wt sample).2.flight.currentPlanStep + 1 } } wt h
      rw [hnoop.2]
      exact h
  · next hcond =>
    exfalso
    apply hcond
    rw [hplan, hstep]
    exact hlast

/-- C9: for an Active or Emergency flight whose next plan step is due,
executeFlightPlanStep advances the plan-step index by one whether or not the
step's bound operation succeeded (a failed transition is never retried), and
when the index thereby passes the last step the flight is marked Completed
regardless of what the earlier steps returned. -/
theorem C9_plan_step_advances (w : World) (ct wt : ℚ) (sample : FlightPhase → ℚ)
    (hst : w.flight.status = FlightStatus.active ∨
           w.flight.status = FlightStatus.emergency)
    (hidx : w.flight.currentPlanStep < w.flight.flightPlan.length)
    (hdue : (w.flight.flightPlan.getD w.flight.currentPlanStep
        defaultPlanStep).relativeTimeOffset ≤ ct - w.flight.activationTime) :
    (w.executeFlightPlanStep ct wt sample).2.flight.currentPlanStep =
      w.flight.currentPlanStep + 1 ∧
    (w.flight.flightPlan.length ≤ w.flight.currentPlanStep + 1 →
      (w.executeFlightPlanStep ct wt sample).2.flight.status =
        FlightStatus.completed) := by
  exact ⟨(exec_advances w ct wt sample hidx hdue).1,
         fun hlast => exec_completes_at_end w ct wt sample hst hidx hdue hlast⟩

/-- C9 witness: the last arrival-plan step (the complete() step, due at
t = 150) leaves the flight Completed with the index past the end. -/
theorem C9_plan_step_witness :
    (World.executeFlightPlanStep
      { flight := { flightSample with currentPlanStep := 4 }, aircraft := acSample,
        runway := initRunway RunwayId.rwyA, flightHasRunway := false } 150 0
      fun p => (SPEED_LIMITS p).min).2.flight.status = FlightStatus.completed :=
  (C9_plan_step_advances
    { flight := { flightSample with currentPlanStep := 4 }, aircraft := acSample,
      runway := initRunway RunwayId.rwyA, flightHasRunway := false } 150 0
    (fun p => (SPEED_LIMITS p).min) (Or.inl rfl) (by decide)
    (by norm_num [flightSample, createArrivalFlightPlan, defaultPlanStep])).2
    (by decide)

/-- A release by the stored occupant (same object identity) succeeds and
leaves the runway Available. -/
theorem release_success (r : Runway) (x occ : Aircraft) (t : ℚ)
    (hs : r.status = RunwayStatus.inUse) (hocc : r.assignedAircraft = some occ)
    (hid : occ.id = x.id) :
    (r.releaseAircraft (some x) t).1 = true ∧
    (r.releaseAircraft (some x) t).2.status = RunwayStatus.available := by
  simp [Runway.releaseAircraft, hs, hocc, hid]

/-- The release-and-reset block, when the flight holds an in-use runway
occupied by its own aircraft, leaves the runway Available and the reference
cleared. -/
theorem dropRunway_releases (w : World) (wt : ℚ) (occ : Aircraft)
    (hrw : w.flightHasRunway = true) (hinuse : w.runway.status = RunwayStatus.inUse)
    (hocc : w.runway.assignedAircraft = some occ) (hoid : occ.id = w.aircraft.id) :
    (w.dropRunway wt).runway.status = RunwayStatus.available ∧
    (w.dropRunway wt).flightHasRunway = false := by
  unfold World.dropRunway
  rw [if_pos hrw]
  exact ⟨(release_success w.runway w.aircraft occ wt hinuse hocc hoid).2, rfl⟩

/-- Flight::handleGroundFault on a faulted aircraft holding an in-use runway
cancels the flight with the ground-fault reason and releases the runway. -/
theorem handleGroundFault_full (w : World) (wt : ℚ) (occ : Aircraft)
    (hfault : w.aircraft.hasGroundFault = true)
    (hrw : w.flightHasRunway = true)
    (hinuse : w.runway.status = RunwayStatus.inUse)
    (hocc : w.runway.assignedAircraft = some occ)
    (hoid : occ.id = w.aircraft.id) :
    (w.handleGroundFault wt).2.flight.status = FlightStatus.canceled ∧
    (w.handleGroundFault wt).2.flight.statusReason = "Ground fault detected" ∧
    (w.handleGroundFault wt).2.runway.status = RunwayStatus.available ∧
    (w.handleGroundFault wt).2.flightHasRunway = false := by
  unfold World.handleGroundFault
  rw [if_pos hfault]
  dsimp only
  exact ⟨rfl, rfl, (dropRunway_releases w wt occ hrw hinuse hocc hoid).1,
         (dropRunway_releases w wt occ hrw hinuse hocc hoid).2⟩

/-- C7 amended: one Flight::update on an Active or Emergency flight whose
aircraft has a ground fault cancels the flight with the code's reason string
"Ground fault detected" and releases its runway, leaving it Available (the
claim's reason string "ground fault" is not what the code records). -/
theorem C7_groundfault_cancels_and_releases (w : World) (ct wt sd : ℚ) (fr : Bool)
    (sample : FlightPhase → ℚ) (occ : Aircraft)
    (hst : w.flight.status = FlightStatus.active ∨
           w.flight.status = FlightStatus.emergency)
    (hfault : w.aircraft.hasGroundFault = true)
    (hrw : w.flightHasRunway = true)
    (hinuse : w.runway.status = RunwayStatus.inUse)
    (hocc : w.runway.assignedAircraft = some occ)
    (hoid : occ.id = w.aircraft.id) :
    (w.update ct wt sd fr sample).flight.status = FlightStatus.canceled ∧
    (w.update ct wt sd fr sample).flight.statusReason = "Ground fault detected" ∧
    (w.update ct wt sd fr sample).runway.status = RunwayStatus.available ∧
    (w.update ct wt sd fr sample).flightHasRunway = false := by
  have hcond : ¬(w.flight.status ≠ FlightStatus.active ∧
      w.flight.status ≠ FlightStatus.emergency) := by
    rcases hst with h | h <;> simp [h]
  have hfault2 : (w.aircraft.update sd fr).hasGroundFault = true :=
    aircraftUpdate_fault w.aircraft sd fr hfault
  unfold World.update
  rw [if_neg hcond]
  dsimp only
  rw [if_pos hfault2]
  exact handleGroundFault_full { w with aircraft := w.aircraft.update sd fr } wt occ
    hfault2 hrw hinuse hocc (hoid.trans (aircraftUpdate_id w.aircraft sd fr).symm)

/-- A concrete faulted aircraft holding RWY-A. -/
def acFaulty : Aircraft :=
  { acSample with hasGroundFault := true, assignedRunway := some RunwayId.rwyA }

/-- A concrete active flight whose faulted aircraft occupies RWY-A. -/
def wFault : World :=
  { flight := flightSample, aircraft := acFaulty,
    runway := { initRunway RunwayId.rwyA with
                  status := RunwayStatus.inUse,
                  assignedAircraft := some acFaulty,
                  usageCount := 1 },
    flightHasRunway := true }

/-- C7 counterexample: one update cycle on an active flight with a faulted
aircraft does cancel the flight and release the runway, but the recorded
reason is the string "Ground fault detected", not the claimed
"ground fault". -/
theorem C7_reason_counterexample :
    wFault.flight.status = FlightStatus.active ∧
    wFault.aircraft.hasGroundFault = true ∧
    (wFault.update 1 1 0 false fun p => (SPEED_LIMITS p).min).flight.statusReason =
      "Ground fault detected" ∧
    "Ground fault detected" ≠ "ground fault" := by
  have hcond : ¬(wFault.flight.status ≠ FlightStatus.active ∧
      wFault.flight.status ≠ FlightStatus.emergency) := by decide
  have hfault2 : (wFault.aircraft.update 0 false).hasGroundFault = true :=
    aircraftUpdate_fault wFault.aircraft 0 false rfl
  have hreason : (wFault.update 1 1 0 false
      fun p => (SPEED_LIMITS p).min).flight.statusReason = "Ground fault detected" := by
    unfold World.update
    rw [if_neg hcond]
    dsimp only
    rw [if_pos hfault2]
    exact (handleGroundFault_full { wFault with aircraft := wFault.aircraft.update 0 false }
      1 acFaulty hfault2 rfl rfl rfl
      (aircraftUpdate_id wFault.aircraft 0 false).symm).2.1
  exact ⟨rfl, rfl, hreason, by decide⟩

/-- C7 witness: the same update cycle leaves the flight Canceled. -/
theorem C7_groundfault_witness :
    (wFault.update 1 1 0 false fun p => (SPEED_LIMITS p).min).flight.status =
      FlightStatus.canceled :=
  (C7_groundfault_cancels_and_releases wFault 1 1 0 false
    (fun p => (SPEED_LIMITS p).min) acFaulty (Or.inl rfl) rfl rfl rfl rfl rfl).1

/-- Flight::releaseRunway, when the flight holds an in-use runway occupied by
its own aircraft, leaves the runway Available, clears the reference and does
not touch the aircraft. -/
theorem releaseRunway_success (w : World) (wt : ℚ) (occ : Aircraft)
    (hrw : w.flightHasRunway = true) (hinuse : w.runway.status = RunwayStatus.inUse)
    (hocc : w.runway.assignedAircraft = some occ) (hoid : occ.id = w.aircraft.id) :
    (w.releaseRunway wt).2.runway.status = RunwayStatus.available ∧
    (w.releaseRunway wt).2.flightHasRunway = false ∧
    (w.releaseRunway wt).2.aircraft = w.aircraft := by
  have hok := release_success w.runway w.aircraft occ wt hinuse hocc hoid
  simp [World.releaseRunway, hrw, hok.1, hok.2]

/-- C6 amended: in every plan built by the source, an arrival flight releases
its runway in the step that enters TaxiIn (index 2, offset 90 s regular /
45 s emergency), but a departure flight keeps its runway through the step
that enters Climb (index 2, a bare transition) and only releases it in the
step that enters Cruise (index 3, offset 90 s regular / 45 s emergency);
after the releasing step the runway is Available again. -/
theorem C6_release_steps (w : World) (wt : ℚ) (sample : FlightPhase → ℚ)
    (occ : Aircraft)
    (hrw : w.flightHasRunway = true)
    (hinuse : w.runway.status = RunwayStatus.inUse)
    (hocc : w.runway.assignedAircraft = some occ)
    (hoid : occ.id = w.aircraft.id) :
    (createArrivalFlightPlan.getD 2 defaultPlanStep =
      { action := PlanAction.releaseAndTransition, relativeTimeOffset := 90 }) ∧
    (w.aircraft.currentPhase = FlightPhase.landing →
      (w.runPlanAction PlanAction.releaseAndTransition wt sample).2.aircraft.currentPhase =
        FlightPhase.taxiIn ∧
      (w.runPlanAction PlanAction.releaseAndTransition wt sample).2.runway.status =
        RunwayStatus.available ∧
      (w.runPlanAction PlanAction.releaseAndTransition wt sample).2.flightHasRunway =
        false) ∧
    (createDepartureFlightPlan.getD 2 defaultPlanStep =
      { action := PlanAction.transitionNext, relativeTimeOffset := 75 }) ∧
    (w.aircraft.currentPhase = FlightPhase.takeoffRoll →
      (w.runPlanAction PlanAction.transitionNext wt sample).2.aircraft.currentPhase =
        FlightPhase.climb ∧
      (w.runPlanAction PlanAction.transitionNext wt sample).2.runway = w.runway ∧
      (w.runPlanAction PlanAction.transitionNext wt sample).2.flightHasRunway = true) ∧
    (createDepartureFlightPlan.getD 3 defaultPlanStep =
      { action := PlanAction.releaseAndTransition, relativeTimeOffset := 90 }) ∧
    (w.aircraft.currentPhase = FlightPhase.climb →
      (w.runPlanAction PlanAction.releaseAndTransition wt sample).2.aircraft.currentPhase =
        FlightPhase.cruise ∧
      (w.runPlanAction PlanAction.releaseAndTransition wt sample).2.runway.status =
        RunwayStatus.available ∧
      (w.runPlanAction PlanAction.releaseAndTransition wt sample).2.flightHasRunway =
        false) ∧
    ((createEmergencyFlightPlan true).getD 2 defaultPlanStep =
      { action := PlanAction.releaseAndTransition, relativeTimeOffset := 45 }) ∧
    ((createEmergencyFlightPlan false).getD 3 defaultPlanStep =
      { action := PlanAction.releaseAndTransition, relativeTimeOffset := 45 }) := by
  obtain ⟨hra, hrb, hrc⟩ := releaseRunway_success w wt occ hrw hinuse hocc hoid
  refine ⟨rfl, ?_, rfl, ?_, rfl, ?_, rfl, rfl⟩
  · intro hphase
    unfold World.runPlanAction
    dsimp only
    refine ⟨?_, hra, hrb⟩
    rw [hrc]
    simp [Aircraft.transitionToNextPhase, Aircraft.getNextPhase,
          Aircraft.isValidTransition, hphase]
  · intro hphase
    unfold World.runPlanAction
    dsimp only
    refine ⟨?_, rfl, hrw⟩
    simp [Aircraft.transitionToNextPhase, Aircraft.getNextPhase,
          Aircraft.isValidTransition, hphase]
  · intro hphase
    unfold World.runPlanAction
    dsimp only
    refine ⟨?_, hra, hrb⟩
    rw [hrc]
    simp [Aircraft.transitionToNextPhase, Aircraft.getNextPhase,
          Aircraft.isValidTransition, hphase]

/-- A concrete departing aircraft in TakeoffRoll holding RWY-B. -/
def acTakeoff : Aircraft :=
  { acSample with
      direction := FlightDirection.east,
      currentPhase := FlightPhase.takeoffRoll,
      assignedRunway := some RunwayId.rwyB }

/-- A concrete departure world about to run the Climb-entering plan step. -/
def wTakeoff : World :=
  { flight := { flightSample with
                  flightPlan := createDepartureFlightPlan,
                  currentPlanStep := 2 },
    aircraft := acTakeoff,
    runway := { initRunway RunwayId.rwyB with
                  status := RunwayStatus.inUse,
                  assignedAircraft := some acTakeoff,
                  usageCount := 1 },
    flightHasRunway := true }

/-- C6 counterexample: in the departure plan the step that enters Climb is
index 2, a bare phase transition; running it moves the aircraft into Climb
but leaves the runway InUse and still held by the flight, so the claim that
a departure releases its runway at the step entering Climb (leaving it
Available) is false.  The release actually sits at index 3, the step
entering Cruise. -/
theorem C6_departure_release_counterexample :
    createDepartureFlightPlan.getD 2 defaultPlanStep =
      { action := PlanAction.transitionNext, relativeTimeOffset := 75 } ∧
    (wTakeoff.runPlanAction PlanAction.transitionNext 0
        fun p => (SPEED_LIMITS p).min).2.aircraft.currentPhase = FlightPhase.climb ∧
    (wTakeoff.runPlanAction PlanAction.transitionNext 0
        fun p => (SPEED_LIMITS p).min).2.runway.status = RunwayStatus.inUse ∧
    (wTakeoff.runPlanAction PlanAction.transitionNext 0
        fun p => (SPEED_LIMITS p).min).2.flightHasRunway = true ∧
    createDepartureFlightPlan.getD 3 defaultPlanStep =
      { action := PlanAction.releaseAndTransition, relativeTimeOffset := 90 } := by
  decide

/-- A concrete arriving aircraft in Landing holding RWY-A. -/
def acLanding : Aircraft :=
  { acSample with
      currentPhase := FlightPhase.landing,
      assignedRunway := some RunwayId.rwyA }

/-- A concrete arrival world about to run the TaxiIn-entering plan step. -/
def wLanding : World :=
  { flight := { flightSample with currentPlanStep := 2 },
    aircraft := acLanding,
    runway := { initRunway RunwayId.rwyA with
                  status := RunwayStatus.inUse,
                  assignedAircraft := some acLanding,
                  usageCount := 1 },
    flightHasRunway := true }

/-- C6 witness: the arrival releasing step moves the aircraft into TaxiIn and
leaves RWY-A Available. -/
theorem C6_release_steps_witness :
    (wLanding.runPlanAction PlanAction.releaseAndTransition 3
        fun p => (SPEED_LIMITS p).min).2.aircraft.currentPhase =
      FlightPhase.taxiIn ∧
    (wLanding.runPlanAction PlanAction.releaseAndTransition 3
        fun p => (SPEED_LIMITS p).min).2.runway.status = RunwayStatus.available :=
  have h := C6_release_steps wLanding 3 (fun p => (SPEED_LIMITS p).min) acLanding
    rfl rfl rfl rfl
  ⟨(h.2.1 rfl).1, (h.2.1 rfl).2.1⟩

end AirControlX
